import Mathlib

/-!
# Capture session of the screen recorder (`src/src/App.jsx`)

A shallow embedding of the `App` component's recording logic.

* React state (`useState`) and refs (`useRef`) are the fields of `AppState`.
  A `setX(v)` call is an immediate field update.
* Browser objects reachable from the component are part of the state too:
  the media streams that were granted (`streams`, a heap indexed by position,
  so that a stream keeps existing after its ref is set to `null`), the
  recorder held by `mediaRecorderRef` (by value), the intervals scheduled with
  `setInterval` (`intervals`), and a log of the observable effects (`alert`
  boxes, HTTP requests, downloads).  `console.log` / `console.error` output
  is not modelled.
* Every handler of the source is one function `AppState → AppState`.  An
  `async` function is cut at its `await`s; what the awaited promise settles
  to is an input (`StartEnv`, `UploadEnv`).  `startRecording` is given both
  in parts (`startRecordingBegin`, `startRecordingScreenGranted`,
  `startRecordingMicSettled`) and as the whole call with nothing delivered
  while it awaits.
* The recorder is held by value: a recorder that `startRecording` replaces
  while it still has a `stop` event queued is no longer followed, so two
  sessions that overlap are outside what `step` describes.
* `Event` lists what the browser can deliver to the component and `step`
  dispatches one event to its handler, the way the platform does: an interval
  callback only runs while its interval is scheduled, `ended` is fired once on
  a live track that carries a handler, `stop` is fired once per `stop()` call
  that found the recorder active.
* `MediaRecorder.stop()` follows the W3C MediaStream Recording text: on an
  inactive recorder it does nothing; otherwise the state becomes `inactive`
  at once and one `stop` event is queued.  A recorder that stops by itself
  because every track of its stream has ended is not modelled.
* The updater passed to `setRecordingTime` runs once per firing of the
  interval, at the firing.
* Seconds are integers (`Int`); the counter never leaves the range where a
  JavaScript number is an exact integer.
-/

namespace ScreenRecorder

/-! ## Browser objects -/

/-- Value of `MediaStreamTrack.kind`. -/
inductive TrackKind where
  | video
  | audio
  deriving DecidableEq, Repr

/-- Value of `MediaStreamTrack.readyState`. -/
inductive ReadyState where
  | live
  | ended
  deriving DecidableEq, Repr

/-- One media track: `onended` tells whether the handler of `App.jsx` lines 99-108 is installed. -/
structure MediaStreamTrack where
  kind : TrackKind
  readyState : ReadyState
  onended : Bool
  deriving DecidableEq, Repr

/-- One `MediaStream`: the list `getTracks()` returns. -/
structure MediaStream where
  tracks : List MediaStreamTrack
  deriving DecidableEq, Repr

/-- The two mime types the source names. -/
inductive MimeType where
  | webmVp9
  | webm
  deriving DecidableEq, Repr

/-- Binary payload: `size` is the number of bytes. -/
structure Blob where
  bytes : List Nat
  type : MimeType
  deriving DecidableEq, Repr

/-- The `size` property of a blob. -/
def Blob.size (b : Blob) : Nat := b.bytes.length

/-- Result of `new Blob(parts, { type })`: the parts one after the other. -/
def Blob.ofParts (parts : List Blob) (type : MimeType) : Blob :=
  { bytes := (parts.map Blob.bytes).flatten, type := type }

/-- Value of `MediaRecorder.state`. -/
inductive RecordingState where
  | inactive
  | recording
  | paused
  deriving DecidableEq, Repr

/-- One `MediaRecorder`: `stream` holds the combined stream as references
(stream index, track index) into the heap; `queuedStop` counts the `stop`
events queued by `stop()` and not dispatched yet. -/
structure MediaRecorder where
  stream : List (Nat × Nat)
  mimeType : MimeType
  state : RecordingState
  queuedStop : Nat
  deriving DecidableEq, Repr

/-- A persisted recording as the backend lists it. -/
structure Recording where
  id : Nat
  filename : String
  filesize : Nat
  url : String
  deriving DecidableEq, Repr

/-- The texts passed to `alert` in the source. -/
inductive Notice where
  | maxTimeReached
  | startFailed
  | uploadSucceeded
  | uploadFailed
  deriving DecidableEq, Repr

/-- Observable effects, in the order they happen. -/
inductive Effect where
  | alert (n : Notice)
  | getRecordings
  | postRecording (body : Blob)
  | download (b : Blob)
  deriving DecidableEq, Repr

/-! ## Component state -/

/-- State of `App`: the five `useState` cells, the five refs, and the browser objects they reach. -/
structure AppState where
  isRecording : Bool
  videoRecordedURL : Option Blob
  isPreparing : Bool
  recordingTime : Int
  recordings : List Recording
  mediaRecorderRef : Option MediaRecorder
  recordedChunksRef : List Blob
  timerRef : Option Nat
  screenStreamRef : Option Nat
  micStreamRef : Option Nat
  streams : List MediaStream
  intervals : List Nat
  nextIntervalId : Nat
  log : List Effect
  deriving DecidableEq, Repr

/-- State of a freshly mounted component (lines 10-19). -/
def AppState.initial : AppState :=
  { isRecording := false
    videoRecordedURL := none
    isPreparing := false
    recordingTime := 0
    recordings := []
    mediaRecorderRef := none
    recordedChunksRef := []
    timerRef := none
    screenStreamRef := none
    micStreamRef := none
    streams := []
    intervals := []
    nextIntervalId := 1
    log := [] }

/-! ## Platform operations -/

/-- Apply `f` to the element at position `i`, if there is one. -/
def updateAt {α : Type} (f : α → α) : Nat → List α → List α
  | _, [] => []
  | 0, x :: xs => f x :: xs
  | n + 1, x :: xs => x :: updateAt f n xs

/-- Effect of `track.stop()`: the track is ended; no `ended` event is fired. -/
def MediaStreamTrack.stop (t : MediaStreamTrack) : MediaStreamTrack :=
  { t with readyState := ReadyState.ended }

/-- Effect of `stream.getTracks().forEach((track) => track.stop())`. -/
def MediaStream.stopAll (m : MediaStream) : MediaStream :=
  { tracks := m.tracks.map MediaStreamTrack.stop }

/-- Effect of `recorder.stop()`. -/
def MediaRecorder.stop (r : MediaRecorder) : MediaRecorder :=
  if r.state = RecordingState.inactive then r
  else { r with state := RecordingState.inactive, queuedStop := r.queuedStop + 1 }

/-- Effect of `clearInterval(timerRef.current)`: the interval is unscheduled; the ref keeps its value. -/
def clearInterval (s : AppState) : AppState :=
  match s.timerRef with
  | none => s
  | some id => { s with intervals := s.intervals.filter (fun i => i ≠ id) }

/-- Effect of `alert(text)`. -/
def alert (n : Notice) (s : AppState) : AppState :=
  { s with log := s.log ++ [Effect.alert n] }

/-- Stream freshly granted by `getDisplayMedia` / `getUserMedia`: live tracks without handlers. -/
def MediaStream.fresh (kinds : List TrackKind) : MediaStream :=
  { tracks := kinds.map (fun k => { kind := k, readyState := ReadyState.live, onended := false }) }

/-- References to the tracks of stream `i` of the given kind (`getVideoTracks` / `getAudioTracks`). -/
def tracksOfKind (s : AppState) (i : Nat) (k : TrackKind) : List (Nat × Nat) :=
  (((s.streams.getD i { tracks := [] }).tracks.enum).filter (fun p => p.2.kind = k)).map
    (fun p => (i, p.1))

/-- Number of tracks ever acquired. -/
def AppState.tracksAcquired (s : AppState) : Nat :=
  (s.streams.map (fun m => m.tracks.length)).sum

/-- Number of acquired tracks that are no longer live. -/
def AppState.tracksReleased (s : AppState) : Nat :=
  (s.streams.map (fun m => (m.tracks.filter (fun t => t.readyState = ReadyState.ended)).length)).sum

/-- Number of acquired tracks still live. -/
def AppState.tracksLive (s : AppState) : Nat :=
  (s.streams.map (fun m => (m.tracks.filter (fun t => t.readyState = ReadyState.live)).length)).sum

/-! ## Handlers of `App.jsx` -/

/-- What the two permission requests and the recorder constructor settle to:
`none` is a rejected request, `some kinds` a granted stream with tracks of
these kinds; `codecSupported = false` makes `new MediaRecorder` throw. -/
structure StartEnv where
  screen : Option (List TrackKind)
  mic : Option (List TrackKind)
  codecSupported : Bool
  deriving DecidableEq, Repr

/-- Function `stopRecording` (lines 135-151). -/
def stopRecording (s : AppState) : AppState :=
  let s := { s with mediaRecorderRef := s.mediaRecorderRef.map MediaRecorder.stop }
  let s := match s.screenStreamRef with
    | some i => { s with streams := updateAt MediaStream.stopAll i s.streams, screenStreamRef := none }
    | none => s
  let s := match s.micStreamRef with
    | some i => { s with streams := updateAt MediaStream.stopAll i s.streams, micStreamRef := none }
    | none => s
  clearInterval { s with isRecording := false, isPreparing := false }

/-- Handler `ondataavailable` (lines 78-82). -/
def ondataavailable (data : Blob) (s : AppState) : AppState :=
  if data.size > 0 then { s with recordedChunksRef := s.recordedChunksRef ++ [data] } else s

/-- Handler `onstop` (lines 85-95). -/
def onstop (s : AppState) : AppState :=
  clearInterval
    { s with
      videoRecordedURL := some (Blob.ofParts s.recordedChunksRef MimeType.webm)
      isRecording := false
      isPreparing := false
      recordingTime := 0 }

/-- Handler `track.onended` (lines 99-108). -/
def onended (s : AppState) : AppState :=
  match s.mediaRecorderRef with
  | some r =>
    if r.state ≠ RecordingState.inactive then
      { s with mediaRecorderRef := some r.stop, isRecording := false }
    else s
  | none => s

/-- Callback given to `setInterval` (lines 116-126): the updater of
`setRecordingTime`, with the side effects it performs when the limit is reached. -/
def onTick (s : AppState) : AppState :=
  if s.recordingTime + 1 ≥ 180 then
    { stopRecording (alert Notice.maxTimeReached s) with recordingTime := 180 }
  else
    { s with recordingTime := s.recordingTime + 1 }

/-- The `catch` block of `startRecording` (lines 127-131). -/
def startRecordingCatch (s : AppState) : AppState :=
  { alert Notice.startFailed s with isPreparing := false }

/-- Lines 41-43 of `startRecording`: what runs before the first `await`. -/
def startRecordingBegin (s : AppState) : AppState :=
  { s with videoRecordedURL := none, isPreparing := true, recordingTime := 0 }

/-- Lines 62-126 of `startRecording`: runs once both streams are granted;
`screen` and `mic` are the heap positions of the local `screenStream` and `micStream`. -/
def startRecordingWire (screen mic : Nat) (codecSupported : Bool) (s : AppState) : AppState :=
  if codecSupported then
    let combined :=
      tracksOfKind s screen TrackKind.video ++ tracksOfKind s screen TrackKind.audio
        ++ tracksOfKind s mic TrackKind.audio
    let recorder : MediaRecorder :=
      { stream := combined, mimeType := MimeType.webmVp9
        state := RecordingState.inactive, queuedStop := 0 }
    let id := s.nextIntervalId
    { s with
      recordedChunksRef := []
      streams :=
        updateAt (fun m => { tracks := m.tracks.map (fun t => { t with onended := true }) })
          screen s.streams
      mediaRecorderRef := some { recorder with state := RecordingState.recording }
      isPreparing := false
      isRecording := true
      timerRef := some id
      intervals := s.intervals ++ [id]
      nextIntervalId := id + 1 }
  else startRecordingCatch s

/-- Lines 46-52 of `startRecording`: what runs when `getDisplayMedia` has
resolved with a stream of tracks of these kinds, up to the second `await`. -/
def startRecordingScreenGranted (screenKinds : List TrackKind) (s : AppState) : AppState :=
  { s with streams := s.streams ++ [MediaStream.fresh screenKinds]
           screenStreamRef := some s.streams.length }

/-- Lines 55-131 of `startRecording`: what runs when `getUserMedia` has
settled; `screen` is the heap position of the local `screenStream`. -/
def startRecordingMicSettled (screen : Nat) (mic : Option (List TrackKind))
    (codecSupported : Bool) (s : AppState) : AppState :=
  match mic with
  | none => startRecordingCatch s
  | some micKinds =>
    startRecordingWire screen s.streams.length codecSupported
      { s with streams := s.streams ++ [MediaStream.fresh micKinds]
               micStreamRef := some s.streams.length }

/-- Lines 46-131 of `startRecording`: everything after the first `await`, the
two continuations run back to back. -/
def startRecordingResume (env : StartEnv) (s : AppState) : AppState :=
  match env.screen with
  | none => startRecordingCatch s
  | some screenKinds =>
    startRecordingMicSettled s.streams.length env.mic env.codecSupported
      (startRecordingScreenGranted screenKinds s)

/-- Function `startRecording` (lines 40-132) as one step: lines 41-43, then the
continuations of its two `await`s with no other event delivered in between.
This is the call made while nothing else is in flight. An event that arrives
while the call awaits runs between `startRecordingBegin` and the continuations,
which are separate functions for that reason. -/
def startRecording (env : StartEnv) (s : AppState) : AppState :=
  startRecordingResume env (startRecordingBegin s)

/-- Function `fetchRecordings` (lines 22-32); `list` is the parsed response, `none` when the request or the parsing fails. -/
def fetchRecordings (list : Option (List Recording)) (s : AppState) : AppState :=
  let s := { s with log := s.log ++ [Effect.getRecordings] }
  match list with
  | some data => { s with recordings := data }
  | none => s

/-- Response to the upload `POST`: `ok` is `res.ok`, `jsonOk` tells whether `res.json()` resolves. -/
structure HttpResponse where
  ok : Bool
  status : Nat
  jsonOk : Bool
  deriving DecidableEq, Repr

/-- What the requests made during an upload settle to: `blobFetched` for
`fetch(videoRecordedURL)` and `response.blob()`, `post` for the `POST`
(`none` is a network error), `list` for the refetch of the recordings. -/
structure UploadEnv where
  blobFetched : Bool
  post : Option HttpResponse
  list : Option (List Recording)
  deriving DecidableEq, Repr

/-- Function `uploadRecording` (lines 165-200); `url` is the `videoRecordedURL`
the closure captured when the component was rendered. -/
def uploadRecording (url : Option Blob) (env : UploadEnv) (s : AppState) : AppState :=
  match url with
  | none => s
  | some blob =>
    if env.blobFetched then
      let s := { s with log := s.log ++ [Effect.postRecording blob] }
      match env.post with
      | none => alert Notice.uploadFailed s
      | some res =>
        if res.ok && res.jsonOk then
          alert Notice.uploadSucceeded (fetchRecordings env.list s)
        else alert Notice.uploadFailed s
    else alert Notice.uploadFailed s

/-- Function `downloadRecording` (lines 154-162). -/
def downloadRecording (s : AppState) : AppState :=
  match s.videoRecordedURL with
  | none => s
  | some b => { s with log := s.log ++ [Effect.download b] }

/-- The record button's `onClick` (line 245): `isRecording ? stopRecording : startRecording`. -/
def recordButtonClick (env : StartEnv) (s : AppState) : AppState :=
  if s.isRecording then stopRecording s else startRecording env s

/-- The upload button's `onClick` (lines 318-321): `uploadRecording()` runs
up to its first `await` without touching the state, `setVideoRecordedURL(null)`
follows, and the rest of `uploadRecording` runs when its requests settle. -/
def uploadButtonClick (env : UploadEnv) (s : AppState) : AppState :=
  uploadRecording s.videoRecordedURL env { s with videoRecordedURL := none }

/-- The download button's `onClick` (lines 303-306). -/
def downloadButtonClick (s : AppState) : AppState :=
  { downloadRecording s with videoRecordedURL := none }

/-! ## Events -/

/-- What the browser delivers to the component. -/
inductive Event where
  | clickRecord (env : StartEnv)
  | clickUpload (env : UploadEnv)
  | clickDownload
  | timerFired (id : Nat)
  | trackEnded (stream track : Nat)
  | dataavailable (data : Blob)
  | stop
  deriving DecidableEq, Repr

/-- The platform ends track `j` of stream `i` (the user revoked the capture):
nothing happens unless the track is live; it becomes ended and its `onended`
handler, if installed, runs. -/
def trackEnded (i j : Nat) (s : AppState) : AppState :=
  match (s.streams.getD i { tracks := [] }).tracks.get? j with
  | some t =>
    if t.readyState = ReadyState.live then
      let s := { s with
        streams := updateAt (fun m => { tracks := updateAt MediaStreamTrack.stop j m.tracks }) i s.streams }
      if t.onended then onended s else s
    else s
  | none => s

/-- The recorder's queued `stop` event is dispatched: `onstop` runs. Nothing happens when none is queued. -/
def stopEvent (s : AppState) : AppState :=
  match s.mediaRecorderRef with
  | some r =>
    if r.queuedStop > 0 then
      onstop { s with mediaRecorderRef := some { r with queuedStop := r.queuedStop - 1 } }
    else s
  | none => s

/-- Dispatch of one event. -/
def step (s : AppState) : Event → AppState
  | Event.clickRecord env => recordButtonClick env s
  | Event.clickUpload env => uploadButtonClick env s
  | Event.clickDownload => downloadButtonClick s
  | Event.timerFired id => if id ∈ s.intervals then onTick s else s
  | Event.trackEnded i j => trackEnded i j s
  | Event.dataavailable data =>
    match s.mediaRecorderRef with
    | some _ => ondataavailable data s
    | none => s
  | Event.stop => stopEvent s

/-- Dispatch of a sequence of events, first to last. -/
def run (s : AppState) (evs : List Event) : AppState := evs.foldl step s

/-- The three ways a recording is stopped. -/
inductive StopTrigger where
  | manual
  | limitTick
  | interruption (stream track : Nat)
  deriving DecidableEq, Repr

/-- One stop trigger applied to a state: a call of `stopRecording`, a firing of
the interval held by `timerRef`, or the end of a track. -/
def StopTrigger.apply (s : AppState) : StopTrigger → AppState
  | StopTrigger.manual => stopRecording s
  | StopTrigger.limitTick =>
    match s.timerRef with
    | some id => step s (Event.timerFired id)
    | none => s
  | StopTrigger.interruption i j => step s (Event.trackEnded i j)

/-- A sequence of stop triggers applied first to last. -/
def applyTriggers (s : AppState) (ts : List StopTrigger) : AppState :=
  ts.foldl StopTrigger.apply s

/-- Grant of both streams with a supported codec. -/
def StartEnv.granted (screenKinds micKinds : List TrackKind) : StartEnv :=
  { screen := some screenKinds, mic := some micKinds, codecSupported := true }

/-! ## Rendering of the timer -/

/-- Method `String.prototype.padStart`: the pad string is repeated and cut to
the missing length, and put in front; a string already long enough, or an
empty pad string, gives the string back. -/
def padStart (str : String) (targetLength : Nat) (padString : String) : String :=
  if targetLength ≤ str.length ∨ padString.length = 0 then str
  else
    let fillLen := targetLength - str.length
    String.mk (((List.replicate fillLen padString.data).flatten).take fillLen) ++ str

/-- Function `formatTime` (lines 229-235): `Math.floor(seconds / 60)` is the
floor division, `%` the remainder with the sign of the dividend, `toString`
the decimal text of an integer. -/
def formatTime (seconds : Int) : String :=
  let mins := padStart (toString (Int.fdiv seconds 60)) 2 "0"
  let secs := padStart (toString (Int.tmod seconds 60)) 2 "0"
  mins ++ ":" ++ secs

/-- Two decimal digits of a number below 100, with a leading zero. -/
def twoDigits (n : Nat) : String :=
  String.mk [Nat.digitChar (n / 10), Nat.digitChar (n % 10)]

/-- The text mm:ss of a second count: minutes and seconds as two digits each. -/
def mmss (s : Nat) : String :=
  twoDigits (s / 60) ++ ":" ++ twoDigits (s % 60)

/-! ## A concrete session -/

/-- The session started from the freshly mounted component when the screen
request is granted with one video track and the microphone request with one
audio track. Its interval has id 1, its screen stream is stream 0 and its
microphone stream is stream 1. -/
def sampleSession : AppState :=
  startRecording (StartEnv.granted [TrackKind.video] [TrackKind.audio]) AppState.initial

/-- The sample session after `k` firings of its interval. -/
def sampleSessionAfter (k : Nat) : AppState :=
  run sampleSession (List.replicate k (Event.timerFired 1))

/-- The sample session stopped by `stopRecording` after 5 ticks, with one
chunk of 3 bytes delivered and the stop event dispatched: its artifact is exposed. -/
def sampleReady : AppState :=
  run (stopRecording (sampleSessionAfter 5))
    [Event.dataavailable { bytes := [1, 2, 3], type := MimeType.webmVp9 }, Event.stop]

/-- A rejected screen request. -/
def StartEnv.denied : StartEnv :=
  { screen := none, mic := none, codecSupported := true }

/-- An upload whose `POST` is answered with status 500. -/
def UploadEnv.serverError : UploadEnv :=
  { blobFetched := true, post := some { ok := false, status := 500, jsonOk := true }, list := some [] }

/-! # Theorems -/

set_option maxRecDepth 100000


/-! ## The elapsed-seconds counter through the handlers -/

theorem clearInterval_recordingTime (s : AppState) :
    (clearInterval s).recordingTime = s.recordingTime := by
  unfold clearInterval; split <;> rfl

theorem stopRecording_recordingTime (s : AppState) :
    (stopRecording s).recordingTime = s.recordingTime := by
  unfold stopRecording
  simp only [clearInterval_recordingTime]
  split <;> split <;> rfl

theorem onended_recordingTime (s : AppState) :
    (onended s).recordingTime = s.recordingTime := by
  unfold onended
  split
  · split <;> rfl
  · rfl

theorem onstop_recordingTime (s : AppState) : (onstop s).recordingTime = 0 := by
  unfold onstop; rw [clearInterval_recordingTime]

theorem onTick_recordingTime (s : AppState) :
    (onTick s).recordingTime
      = if s.recordingTime + 1 < 180 then s.recordingTime + 1 else 180 := by
  unfold onTick
  by_cases h : s.recordingTime + 1 < 180
  · have h2 : ¬ (s.recordingTime + 1 ≥ 180) := by omega
    simp [h, h2]
  · have h2 : s.recordingTime + 1 ≥ 180 := by omega
    simp [h, h2]

theorem startRecording_recordingTime (env : StartEnv) (s : AppState) :
    (startRecording env s).recordingTime = 0 := by
  unfold startRecording startRecordingResume startRecordingMicSettled
    startRecordingScreenGranted startRecordingWire startRecordingCatch startRecordingBegin alert
  cases env.screen <;> cases env.mic <;> cases env.codecSupported <;> rfl

theorem trackEnded_recordingTime (i j : Nat) (s : AppState) :
    (trackEnded i j s).recordingTime = s.recordingTime := by
  unfold trackEnded
  split
  · split
    · split
      · rw [onended_recordingTime]
      · rfl
    · rfl
  · rfl

theorem uploadRecording_recordingTime (url : Option Blob) (env : UploadEnv) (s : AppState) :
    (uploadRecording url env s).recordingTime = s.recordingTime := by
  unfold uploadRecording fetchRecordings alert
  cases url <;> cases env.blobFetched <;> cases env.post <;> cases env.list <;>
    simp <;> split <;> rfl

theorem downloadButtonClick_recordingTime (s : AppState) :
    (downloadButtonClick s).recordingTime = s.recordingTime := by
  unfold downloadButtonClick downloadRecording
  split <;> rfl

theorem ondataavailable_recordingTime (data : Blob) (s : AppState) :
    (ondataavailable data s).recordingTime = s.recordingTime := by
  unfold ondataavailable
  split <;> rfl

/-- Every event keeps the counter between 0 and 180. -/
theorem step_recordingTime_bounds (s : AppState) (e : Event)
    (h : 0 ≤ s.recordingTime ∧ s.recordingTime ≤ 180) :
    0 ≤ (step s e).recordingTime ∧ (step s e).recordingTime ≤ 180 := by
  cases e with
  | clickRecord env =>
    simp only [step, recordButtonClick]
    split
    · rw [stopRecording_recordingTime]; exact h
    · rw [startRecording_recordingTime]; omega
  | clickUpload env =>
    simp only [step, uploadButtonClick]
    rw [uploadRecording_recordingTime]; exact h
  | clickDownload =>
    simp only [step]
    rw [downloadButtonClick_recordingTime]; exact h
  | timerFired id =>
    simp only [step]
    split
    · rw [onTick_recordingTime]
      split <;> omega
    · exact h
  | trackEnded i j =>
    simp only [step]
    rw [trackEnded_recordingTime]; exact h
  | dataavailable data =>
    simp only [step]
    split
    · rw [ondataavailable_recordingTime]; exact h
    · exact h
  | stop =>
    simp only [step, stopEvent]
    split
    · split
      · rw [onstop_recordingTime]; omega
      · exact h
    · exact h

theorem run_recordingTime_bounds (evs : List Event) (s : AppState)
    (h : 0 ≤ s.recordingTime ∧ s.recordingTime ≤ 180) :
    0 ≤ (run s evs).recordingTime ∧ (run s evs).recordingTime ≤ 180 := by
  induction evs generalizing s with
  | nil => exact h
  | cons e es ih => exact ih (step s e) (step_recordingTime_bounds s e h)

theorem iterate_onTick_bounds (n : Nat) (s : AppState)
    (h : 0 ≤ s.recordingTime ∧ s.recordingTime ≤ 180) :
    0 ≤ (onTick^[n] s).recordingTime ∧ (onTick^[n] s).recordingTime ≤ 180 := by
  induction n generalizing s with
  | zero => exact h
  | succ k ih =>
    rw [Function.iterate_succ_apply]
    apply ih
    rw [onTick_recordingTime]
    split <;> omega

/-- C5: the updater of the timer tick returns p + 1 when p + 1 < 180 and 180
otherwise, for every integer previous value p; startRecording sets the counter
to 0; and in every state reached from startRecording by any number of ticks,
or by any sequence of events at all, the counter is between 0 and 180. -/
theorem C5_elapsed_seconds_never_exceed_180 :
    (∀ (s : AppState) (p : Int),
        (onTick { s with recordingTime := p }).recordingTime
          = if p + 1 < 180 then p + 1 else 180)
    ∧ (∀ (env : StartEnv) (s : AppState), (startRecording env s).recordingTime = 0)
    ∧ (∀ (env : StartEnv) (s : AppState) (n : Nat),
        0 ≤ (onTick^[n] (startRecording env s)).recordingTime
          ∧ (onTick^[n] (startRecording env s)).recordingTime ≤ 180)
    ∧ (∀ (env : StartEnv) (s : AppState) (evs : List Event),
        0 ≤ (run (startRecording env s) evs).recordingTime
          ∧ (run (startRecording env s) evs).recordingTime ≤ 180) := by
  refine ⟨fun s p => ?_, startRecording_recordingTime, fun env s n => ?_, fun env s evs => ?_⟩
  · rw [onTick_recordingTime]
  · apply iterate_onTick_bounds
    rw [startRecording_recordingTime]; omega
  · apply run_recordingTime_bounds
    rw [startRecording_recordingTime]; omega


/-! ## A started session and its timer -/

theorem startRecording_granted_eq (s : AppState) (screenKinds micKinds : List TrackKind) :
    startRecording (StartEnv.granted screenKinds micKinds) s
      = startRecordingWire s.streams.length (s.streams.length + 1) true
          { startRecordingBegin s with
            streams := s.streams ++ [MediaStream.fresh screenKinds] ++ [MediaStream.fresh micKinds]
            screenStreamRef := some s.streams.length
            micStreamRef := some (s.streams.length + 1) } := by
  simp [startRecording, startRecordingResume, startRecordingMicSettled,
    startRecordingScreenGranted, StartEnv.granted, startRecordingBegin]

theorem startRecording_granted_fields (s : AppState) (screenKinds micKinds : List TrackKind) :
    (startRecording (StartEnv.granted screenKinds micKinds) s).recordingTime = 0
    ∧ (startRecording (StartEnv.granted screenKinds micKinds) s).isRecording = true
    ∧ (startRecording (StartEnv.granted screenKinds micKinds) s).isPreparing = false
    ∧ (startRecording (StartEnv.granted screenKinds micKinds) s).timerRef = some s.nextIntervalId
    ∧ (startRecording (StartEnv.granted screenKinds micKinds) s).intervals
        = s.intervals ++ [s.nextIntervalId]
    ∧ (startRecording (StartEnv.granted screenKinds micKinds) s).log = s.log
    ∧ (startRecording (StartEnv.granted screenKinds micKinds) s).recordedChunksRef = []
    ∧ (startRecording (StartEnv.granted screenKinds micKinds) s).videoRecordedURL = none
    ∧ (startRecording (StartEnv.granted screenKinds micKinds) s).screenStreamRef
        = some s.streams.length
    ∧ (startRecording (StartEnv.granted screenKinds micKinds) s).micStreamRef
        = some (s.streams.length + 1)
    ∧ ((startRecording (StartEnv.granted screenKinds micKinds) s).mediaRecorderRef.map
        MediaRecorder.state) = some RecordingState.recording
    ∧ ((startRecording (StartEnv.granted screenKinds micKinds) s).mediaRecorderRef.map
        MediaRecorder.queuedStop) = some 0 := by
  rw [startRecording_granted_eq]
  simp [startRecordingWire, startRecordingBegin]

theorem stopRecording_fields (s : AppState) :
    (stopRecording s).mediaRecorderRef = s.mediaRecorderRef.map MediaRecorder.stop
    ∧ (stopRecording s).timerRef = s.timerRef
    ∧ (stopRecording s).intervals
        = (match s.timerRef with
          | none => s.intervals
          | some id => s.intervals.filter (fun i => i ≠ id))
    ∧ (stopRecording s).log = s.log
    ∧ (stopRecording s).isRecording = false
    ∧ (stopRecording s).isPreparing = false
    ∧ (stopRecording s).recordedChunksRef = s.recordedChunksRef
    ∧ (stopRecording s).videoRecordedURL = s.videoRecordedURL
    ∧ (stopRecording s).screenStreamRef = none
    ∧ (stopRecording s).micStreamRef = none := by
  unfold stopRecording clearInterval
  cases h1 : s.screenStreamRef <;> cases h2 : s.micStreamRef <;> cases h3 : s.timerRef <;>
    simp [h1, h2, h3]

/-- Below the limit a tick of a scheduled interval only advances the counter. -/
theorem run_ticks_below_limit (id : Nat) (k : Nat) (s : AppState) (hid : id ∈ s.intervals)
    (h : s.recordingTime + k < 180) :
    run s (List.replicate k (Event.timerFired id))
      = { s with recordingTime := s.recordingTime + k } := by
  induction k generalizing s with
  | zero => simp [run]
  | succ n ih =>
    have hlt : ¬ (s.recordingTime + 1 ≥ 180) := by omega
    have hstep : step s (Event.timerFired id)
        = { s with recordingTime := s.recordingTime + 1 } := by
      simp [step, hid, onTick, hlt]
    rw [List.replicate_succ, run, List.foldl_cons, hstep]
    have := ih { s with recordingTime := s.recordingTime + 1 } hid (by simp; omega)
    rw [run] at this
    rw [this]
    simp
    omega

/-- An interval that is not scheduled delivers nothing. -/
theorem run_ticks_unscheduled (id : Nat) (m : Nat) (s : AppState) (hid : id ∉ s.intervals) :
    run s (List.replicate m (Event.timerFired id)) = s := by
  induction m with
  | zero => simp [run]
  | succ n ih =>
    rw [List.replicate_succ, run, List.foldl_cons]
    have hstep : step s (Event.timerFired id) = s := by simp [step, hid]
    rw [hstep]
    exact ih

theorem run_append (s : AppState) (xs ys : List Event) :
    run s (xs ++ ys) = run (run s xs) ys := by
  simp [run, List.foldl_append]


/-- State after the tick that finds the counter at 179 in a started session. -/
theorem onTick_at_limit (s : AppState) (h : s.recordingTime + 1 ≥ 180) :
    (onTick s).recordingTime = 180
    ∧ (onTick s).mediaRecorderRef = s.mediaRecorderRef.map MediaRecorder.stop
    ∧ (onTick s).timerRef = s.timerRef
    ∧ (onTick s).intervals
        = (match s.timerRef with
          | none => s.intervals
          | some id => s.intervals.filter (fun i => i ≠ id))
    ∧ (onTick s).log = s.log ++ [Effect.alert Notice.maxTimeReached]
    ∧ (onTick s).isRecording = false
    ∧ (onTick s).screenStreamRef = none
    ∧ (onTick s).micStreamRef = none := by
  obtain ⟨f1, f2, f3, f4, f5, -, -, -, f6, f7⟩ :=
    stopRecording_fields (alert Notice.maxTimeReached s)
  unfold onTick
  rw [if_pos h]
  exact ⟨rfl, f1, f2, f3, f4, f5, f6, f7⟩

/-- C6: in a session started by startRecording (counter 0, recorder recording,
no stop queued), each of the first 179 ticks only advances the counter: the
recorder keeps recording, the interval stays scheduled and nothing is
notified. The 180th tick brings the counter to 180, notifies the limit once,
stops the recorder (one stop event queued) and unschedules the interval, and
whatever number of further firings of that interval leaves the state as the
180th tick left it. -/
theorem C6_automatic_stop_fires_once_on_tick_180
    (s : AppState) (screenKinds micKinds : List TrackKind) :
    (∀ k : Nat, k < 180 →
        run (startRecording (StartEnv.granted screenKinds micKinds) s)
            (List.replicate k (Event.timerFired s.nextIntervalId))
          = { startRecording (StartEnv.granted screenKinds micKinds) s with
              recordingTime := k })
    ∧ ((startRecording (StartEnv.granted screenKinds micKinds) s).mediaRecorderRef.map
          MediaRecorder.state = some RecordingState.recording
        ∧ (startRecording (StartEnv.granted screenKinds micKinds) s).mediaRecorderRef.map
          MediaRecorder.queuedStop = some 0
        ∧ s.nextIntervalId ∈ (startRecording (StartEnv.granted screenKinds micKinds) s).intervals
        ∧ (startRecording (StartEnv.granted screenKinds micKinds) s).log = s.log)
    ∧ ((run (startRecording (StartEnv.granted screenKinds micKinds) s)
            (List.replicate 180 (Event.timerFired s.nextIntervalId))).recordingTime = 180
        ∧ (run (startRecording (StartEnv.granted screenKinds micKinds) s)
            (List.replicate 180 (Event.timerFired s.nextIntervalId))).mediaRecorderRef.map
              MediaRecorder.state = some RecordingState.inactive
        ∧ (run (startRecording (StartEnv.granted screenKinds micKinds) s)
            (List.replicate 180 (Event.timerFired s.nextIntervalId))).mediaRecorderRef.map
              MediaRecorder.queuedStop = some 1
        ∧ s.nextIntervalId ∉ (run (startRecording (StartEnv.granted screenKinds micKinds) s)
            (List.replicate 180 (Event.timerFired s.nextIntervalId))).intervals
        ∧ (run (startRecording (StartEnv.granted screenKinds micKinds) s)
            (List.replicate 180 (Event.timerFired s.nextIntervalId))).log
              = s.log ++ [Effect.alert Notice.maxTimeReached]
        ∧ (run (startRecording (StartEnv.granted screenKinds micKinds) s)
            (List.replicate 180 (Event.timerFired s.nextIntervalId))).isRecording = false)
    ∧ (∀ m : Nat,
        run (startRecording (StartEnv.granted screenKinds micKinds) s)
            (List.replicate (180 + m) (Event.timerFired s.nextIntervalId))
          = run (startRecording (StartEnv.granted screenKinds micKinds) s)
              (List.replicate 180 (Event.timerFired s.nextIntervalId))) := by
  obtain ⟨hT, hRec, hPrep, hRef, hInt, hLog, hChunks, hUrl, hScr, hMic, hSt, hQ⟩ :=
    startRecording_granted_fields s screenKinds micKinds
  generalize startRecording (StartEnv.granted screenKinds micKinds) s = s0 at *
  have hmem : s.nextIntervalId ∈ s0.intervals := by rw [hInt]; simp
  have hbelow : ∀ k : Nat, k < 180 →
      run s0 (List.replicate k (Event.timerFired s.nextIntervalId))
        = { s0 with recordingTime := k } := by
    intro k hk
    have := run_ticks_below_limit s.nextIntervalId k s0 hmem (by rw [hT]; omega)
    rw [this, hT]; simp
  have h180 : run s0 (List.replicate 180 (Event.timerFired s.nextIntervalId))
      = onTick { s0 with recordingTime := 179 } := by
    have hsplit : List.replicate 180 (Event.timerFired s.nextIntervalId)
        = List.replicate 179 (Event.timerFired s.nextIntervalId)
            ++ [Event.timerFired s.nextIntervalId] := by
      rw [← List.replicate_succ']
    rw [hsplit, run_append, hbelow 179 (by omega)]
    simp only [run, List.foldl_cons, List.foldl_nil, step]
    rw [if_pos (by simpa using hmem)]
    rfl
  obtain ⟨fT, fRec, fRef, fInt, fLog, fIsRec, -, -⟩ :=
    onTick_at_limit { s0 with recordingTime := 179 } (by simp)
  have hout : s.nextIntervalId ∉
      (run s0 (List.replicate 180 (Event.timerFired s.nextIntervalId))).intervals := by
    rw [h180, fInt]
    simp [hRef]
  refine ⟨hbelow, ⟨hSt, hQ, hmem, hLog⟩, ⟨?_, ?_, ?_, hout, ?_, ?_⟩, ?_⟩
  · rw [h180, fT]
  · rw [h180, fRec]
    cases hr : s0.mediaRecorderRef with
    | none => simp [hr] at hSt
    | some r =>
      simp only [hr, Option.map_some'] at hSt
      simp [MediaRecorder.stop, Option.some.inj hSt]
  · rw [h180, fRec]
    cases hr : s0.mediaRecorderRef with
    | none => simp [hr] at hQ
    | some r =>
      simp only [hr, Option.map_some'] at hSt hQ
      simp [MediaRecorder.stop, Option.some.inj hSt, Option.some.inj hQ]
  · rw [h180, fLog, hLog]
  · rw [h180, fIsRec]
  · intro m
    rw [List.replicate_add, run_append]
    exact run_ticks_unscheduled _ m _ hout

/-- Witness of C6 at the initial state, one video track and one microphone track, tick 3. -/
theorem C6_automatic_stop_fires_once_on_tick_180_witness :
    3 < 180 ∧
    run (startRecording (StartEnv.granted [TrackKind.video] [TrackKind.audio]) AppState.initial)
        (List.replicate 3 (Event.timerFired AppState.initial.nextIntervalId))
      = { startRecording (StartEnv.granted [TrackKind.video] [TrackKind.audio])
            AppState.initial with recordingTime := (3 : Nat) } :=
  ⟨by decide,
   (C6_automatic_stop_fires_once_on_tick_180 AppState.initial [TrackKind.video]
      [TrackKind.audio]).1 3 (by decide)⟩


/-! ## The accumulated chunks -/

theorem onended_fields (s : AppState) :
    (onended s).recordedChunksRef = s.recordedChunksRef
    ∧ (onended s).mediaRecorderRef.isSome = s.mediaRecorderRef.isSome
    ∧ (onended s).intervals = s.intervals
    ∧ (onended s).timerRef = s.timerRef
    ∧ (onended s).streams = s.streams := by
  unfold onended
  cases h : s.mediaRecorderRef with
  | none => simp [h]
  | some r =>
    by_cases hr : r.state = RecordingState.inactive
    · simp [hr, h]
    · simp [hr]

theorem trackEnded_fields (i j : Nat) (s : AppState) :
    (trackEnded i j s).recordedChunksRef = s.recordedChunksRef
    ∧ (trackEnded i j s).mediaRecorderRef.isSome = s.mediaRecorderRef.isSome
    ∧ (trackEnded i j s).intervals = s.intervals
    ∧ (trackEnded i j s).timerRef = s.timerRef := by
  unfold trackEnded
  split
  · split
    · split
      · exact ⟨(onended_fields _).1, (onended_fields _).2.1, (onended_fields _).2.2.1,
          (onended_fields _).2.2.2.1⟩
      · exact ⟨rfl, rfl, rfl, rfl⟩
    · exact ⟨rfl, rfl, rfl, rfl⟩
  · exact ⟨rfl, rfl, rfl, rfl⟩

theorem onTick_fields (s : AppState) :
    (onTick s).recordedChunksRef = s.recordedChunksRef
    ∧ (onTick s).mediaRecorderRef.isSome = s.mediaRecorderRef.isSome := by
  unfold onTick
  split
  · obtain ⟨h1, -, -, -, -, -, h2, -⟩ := stopRecording_fields (alert Notice.maxTimeReached s)
    refine ⟨h2, ?_⟩
    show (stopRecording (alert Notice.maxTimeReached s)).mediaRecorderRef.isSome = _
    rw [h1]
    simp [alert]
  · exact ⟨rfl, rfl⟩

/-- No stop trigger touches the accumulated chunks or removes the recorder. -/
theorem StopTrigger.apply_fields (t : StopTrigger) (s : AppState) :
    (t.apply s).recordedChunksRef = s.recordedChunksRef
    ∧ (t.apply s).mediaRecorderRef.isSome = s.mediaRecorderRef.isSome := by
  cases t with
  | manual =>
    obtain ⟨h1, -, -, -, -, -, h2, -⟩ := stopRecording_fields s
    refine ⟨h2, ?_⟩
    show (stopRecording s).mediaRecorderRef.isSome = _
    rw [h1]; simp
  | limitTick =>
    simp only [StopTrigger.apply]
    split
    · simp only [step]
      split
      · exact onTick_fields s
      · exact ⟨rfl, rfl⟩
    · exact ⟨rfl, rfl⟩
  | interruption i j =>
    obtain ⟨h1, h2, -, -⟩ := trackEnded_fields i j s
    exact ⟨h1, h2⟩

/-- Delivery of a sequence of chunks to the installed handler appends the non-empty ones, in order. -/
theorem run_dataavailable (cs : List Blob) (s : AppState) (h : s.mediaRecorderRef.isSome = true) :
    run s (cs.map Event.dataavailable)
      = { s with recordedChunksRef := s.recordedChunksRef ++ cs.filter (fun c => c.size > 0) } := by
  induction cs generalizing s with
  | nil => simp [run]
  | cons c rest ih =>
    obtain ⟨r, hr⟩ := Option.isSome_iff_exists.mp h
    have hstep : step s (Event.dataavailable c) = ondataavailable c s := by
      simp [step, hr]
    rw [List.map_cons, run, List.foldl_cons, hstep]
    have hsome : (ondataavailable c s).mediaRecorderRef.isSome = true := by
      unfold ondataavailable; split <;> simpa using h
    have := ih (ondataavailable c s) hsome
    rw [run] at this
    rw [this]
    unfold ondataavailable
    by_cases hc : c.size > 0
    · simp [hc, List.filter_cons]
    · simp [hc, List.filter_cons]

theorem bytes_filter_nonempty (cs : List Blob) :
    ((cs.filter (fun c => c.size > 0)).map Blob.bytes).flatten = (cs.map Blob.bytes).flatten := by
  induction cs with
  | nil => rfl
  | cons c rest ih =>
    by_cases hc : c.size > 0
    · simp [List.filter_cons, hc, ih]
    · have : c.bytes = [] := by
        have : c.bytes.length = 0 := by simpa [Blob.size] using hc
        exact List.length_eq_zero.mp this
      simp [List.filter_cons, hc, ih, this]

/-- C7: in a session started by startRecording, whatever chunks were stored
before, the chunks delivered by dataavailable before the stop trigger (pre) and
between the trigger and the stop event (post) are accumulated as exactly the
chunks of size greater than 0, in arrival order, starting from the empty list;
the artifact onstop builds is the webm blob made of that list, one chunk after
the other, and its bytes are those of all delivered chunks, the zero-length
ones adding nothing. -/
theorem C7_chunks_accumulated_in_order
    (s : AppState) (screenKinds micKinds : List TrackKind) (pre post : List Blob)
    (t : StopTrigger) :
    (startRecording (StartEnv.granted screenKinds micKinds) s).recordedChunksRef = []
    ∧ (run (startRecording (StartEnv.granted screenKinds micKinds) s)
          (pre.map Event.dataavailable)).recordedChunksRef
        = pre.filter (fun c => c.size > 0)
    ∧ (run (t.apply (run (startRecording (StartEnv.granted screenKinds micKinds) s)
          (pre.map Event.dataavailable))) (post.map Event.dataavailable)).recordedChunksRef
        = (pre ++ post).filter (fun c => c.size > 0)
    ∧ (onstop (run (t.apply (run (startRecording (StartEnv.granted screenKinds micKinds) s)
          (pre.map Event.dataavailable))) (post.map Event.dataavailable))).videoRecordedURL
        = some (Blob.ofParts ((pre ++ post).filter (fun c => c.size > 0)) MimeType.webm)
    ∧ (Blob.ofParts ((pre ++ post).filter (fun c => c.size > 0)) MimeType.webm).bytes
        = ((pre ++ post).map Blob.bytes).flatten := by
  obtain ⟨-, -, -, -, -, -, hChunks, -, -, -, hSt, -⟩ :=
    startRecording_granted_fields s screenKinds micKinds
  generalize startRecording (StartEnv.granted screenKinds micKinds) s = s0 at *
  have hsome : s0.mediaRecorderRef.isSome = true := by
    cases hr : s0.mediaRecorderRef with
    | none => simp [hr] at hSt
    | some r => rfl
  have h1 := run_dataavailable pre s0 hsome
  obtain ⟨hT1, hT2⟩ := StopTrigger.apply_fields t (run s0 (pre.map Event.dataavailable))
  have hsome2 : (t.apply (run s0 (pre.map Event.dataavailable))).mediaRecorderRef.isSome
      = true := by
    rw [hT2, h1]; exact hsome
  have h2 := run_dataavailable post _ hsome2
  have h3 : (run (t.apply (run s0 (pre.map Event.dataavailable)))
      (post.map Event.dataavailable)).recordedChunksRef
        = (pre ++ post).filter (fun c => c.size > 0) := by
    rw [h2]
    show (t.apply (run s0 (pre.map Event.dataavailable))).recordedChunksRef ++ _ = _
    rw [hT1, h1]
    simp [hChunks]
  refine ⟨hChunks, ?_, h3, ?_, ?_⟩
  · rw [h1]; simp [hChunks]
  · unfold onstop clearInterval
    split <;> simp [h3]
  · exact bytes_filter_nonempty (pre ++ post)


/-! ## The timer text -/

theorem padStart_two (m : Nat) (h : m < 100) : padStart (toString m) 2 "0" = twoDigits m := by
  interval_cases m <;> rfl

theorem twoDigits_length (m : Nat) : (twoDigits m).length = 2 := rfl

theorem toString_natCast (m : Nat) : toString ((m : Nat) : Int) = toString m := rfl

theorem formatTime_natCast (n : Nat) (h : n < 6000) : formatTime (n : Int) = mmss n := by
  have hdiv : Int.fdiv (n : Int) 60 = ((n / 60 : Nat) : Int) := by
    rw [Int.fdiv_eq_ediv _ (by decide)]
    norm_cast
  have hmod : Int.tmod (n : Int) 60 = ((n % 60 : Nat) : Int) := by
    rw [Int.tmod_eq_emod (by omega) (by decide)]
    norm_cast
  unfold formatTime mmss
  simp only [hdiv, hmod, toString_natCast]
  rw [padStart_two (n / 60) (by omega), padStart_two (n % 60) (by omega)]

/-- C10: for every integer s with 0 <= s < 6000, formatTime(s) is the text
mm:ss: floor(s / 60) as two decimal digits with a leading zero, a colon, and
s mod 60 as two decimal digits with a leading zero, five characters in all;
formatTime(0) is 00:00, formatTime(59) is 00:59 and formatTime(180) is 03:00. -/
theorem C10_formatTime_is_mmss (s : Int) (h0 : 0 ≤ s) (h1 : s < 6000) :
    formatTime s
        = String.mk [Nat.digitChar (s.toNat / 60 / 10), Nat.digitChar (s.toNat / 60 % 10), ':',
            Nat.digitChar (s.toNat % 60 / 10), Nat.digitChar (s.toNat % 60 % 10)]
    ∧ formatTime s = mmss s.toNat
    ∧ (formatTime s).length = 5
    ∧ formatTime 0 = "00:00" ∧ formatTime 59 = "00:59" ∧ formatTime 180 = "03:00" := by
  obtain ⟨n, rfl⟩ := Int.eq_ofNat_of_zero_le h0
  have hn : n < 6000 := by omega
  have hf := formatTime_natCast n hn
  refine ⟨?_, ?_, ?_, ?_, ?_, ?_⟩
  · rw [hf]; rfl
  · rw [hf]; rfl
  · rw [hf]; rfl
  · exact formatTime_natCast 0 (by decide)
  · exact formatTime_natCast 59 (by decide)
  · exact formatTime_natCast 180 (by decide)

/-- Witness of C10 at 125 seconds. -/
theorem C10_formatTime_is_mmss_witness :
    (0 : Int) ≤ 125 ∧ (125 : Int) < 6000 ∧ formatTime 125 = "02:05" := by
  refine ⟨by decide, by decide, ?_⟩
  have h := (C10_formatTime_is_mmss 125 (by decide) (by decide)).1
  rw [h]
  rfl


/-! ## Release of the media tracks -/

theorem updateAt_append_length {α : Type} (f : α → α) (xs : List α) (y : α) (ys : List α) :
    updateAt f xs.length (xs ++ y :: ys) = xs ++ f y :: ys := by
  induction xs with
  | nil => rfl
  | cons x rest ih => simp [updateAt, ih]

theorem updateAt_append_length_succ {α : Type} (f : α → α) (xs : List α) (y z : α) :
    updateAt f (xs.length + 1) (xs ++ [y, z]) = xs ++ [y, f z] := by
  induction xs with
  | nil => rfl
  | cons x rest ih => simp [updateAt, ih]

theorem stopAll_no_live_track (m : MediaStream) :
    (m.stopAll.tracks.filter (fun t => t.readyState = ReadyState.live)).length = 0 := by
  simp [MediaStream.stopAll, MediaStreamTrack.stop, List.filter_eq_nil_iff]

/-- The streams of a started session, and what stopRecording makes of them:
the streams acquired before are untouched, and the two streams of the session
have every track ended. -/
theorem stopRecording_streams_of_session (s : AppState) (screenKinds micKinds : List TrackKind) :
    ∃ screen mic : MediaStream,
      screen.tracks.length = screenKinds.length ∧ mic.tracks.length = micKinds.length
      ∧ (startRecording (StartEnv.granted screenKinds micKinds) s).streams
          = s.streams ++ [screen, mic]
      ∧ (stopRecording (startRecording (StartEnv.granted screenKinds micKinds) s)).streams
          = s.streams ++ [screen.stopAll, mic.stopAll] := by
  refine ⟨{ tracks := (MediaStream.fresh screenKinds).tracks.map
              (fun t => { t with onended := true }) },
          MediaStream.fresh micKinds, ?_, ?_, ?_, ?_⟩
  · simp [MediaStream.fresh]
  · simp [MediaStream.fresh]
  · rw [startRecording_granted_eq]
    simp only [startRecordingWire, startRecordingBegin, if_true, List.append_assoc,
      List.singleton_append]
    exact updateAt_append_length _ _ _ _
  · rw [startRecording_granted_eq]
    simp only [startRecordingWire, startRecordingBegin, if_true, List.append_assoc,
      List.singleton_append, stopRecording, clearInterval]
    rw [updateAt_append_length, updateAt_append_length]
    exact updateAt_append_length_succ _ _ _ _

/-- A session ended by stopRecording adds no live track: the tracks still live
afterwards are those that were live before the session started. -/
theorem stopRecording_releases_session_tracks
    (s : AppState) (screenKinds micKinds : List TrackKind) :
    (stopRecording (startRecording (StartEnv.granted screenKinds micKinds) s)).tracksLive
        = s.tracksLive
    ∧ (stopRecording (startRecording (StartEnv.granted screenKinds micKinds) s)).tracksAcquired
        = s.tracksAcquired + screenKinds.length + micKinds.length := by
  obtain ⟨screen, mic, h1, h2, -, h4⟩ := stopRecording_streams_of_session s screenKinds micKinds
  constructor
  · simp only [AppState.tracksLive, h4, List.map_append, List.sum_append, List.map_cons,
      List.map_nil, List.sum_cons, List.sum_nil, stopAll_no_live_track, Nat.add_zero]
  · simp only [AppState.tracksAcquired, h4, List.map_append, List.sum_append, List.map_cons,
      List.map_nil, List.sum_cons, List.sum_nil]
    simp [MediaStream.stopAll, h1, h2]
    omega


/-- C1: in the sample session (one screen video track, one microphone track)
the user revokes the screen capture: the track.onended handler stops the
recorder and onstop exposes the artifact, yet of the 2 tracks acquired only the
revoked one is no longer live; the microphone track is still live and still
referenced by micStreamRef. The same session ended by stopRecording, or by the
limit tick, has both tracks ended. -/
theorem C1_interruption_leaves_microphone_track_live :
    (run sampleSession [Event.trackEnded 0 0, Event.stop]).videoRecordedURL
      = some (Blob.ofParts [] MimeType.webm)
    ∧ (run sampleSession [Event.trackEnded 0 0, Event.stop]).tracksAcquired = 2
    ∧ (run sampleSession [Event.trackEnded 0 0, Event.stop]).tracksReleased = 1
    ∧ (run sampleSession [Event.trackEnded 0 0, Event.stop]).tracksLive = 1
    ∧ (run sampleSession [Event.trackEnded 0 0, Event.stop]).micStreamRef = some 1
    ∧ (run sampleSession [Event.trackEnded 0 0, Event.stop]).streams.get? 1
      = some { tracks := [{ kind := TrackKind.audio, readyState := ReadyState.live,
                            onended := false }] }
    ∧ (stopEvent (stopRecording sampleSession)).tracksReleased = 2
    ∧ (stopEvent (StopTrigger.apply (sampleSessionAfter 179)
        StopTrigger.limitTick)).tracksReleased = 2 := by
  decide

/-- C2: at the initial state, the screen request is granted with one video
track and the microphone request is rejected: startRecording ends with
isPreparing false, isRecording false and no recorder, but the granted screen
track is still live and still referenced by screenStreamRef. -/
theorem C2_screen_stream_not_released_when_microphone_denied :
    (startRecording { screen := some [TrackKind.video], mic := none, codecSupported := true }
        AppState.initial).isPreparing = false
    ∧ (startRecording { screen := some [TrackKind.video], mic := none, codecSupported := true }
        AppState.initial).isRecording = false
    ∧ (startRecording { screen := some [TrackKind.video], mic := none, codecSupported := true }
        AppState.initial).mediaRecorderRef = none
    ∧ (startRecording { screen := some [TrackKind.video], mic := none, codecSupported := true }
        AppState.initial).log = [Effect.alert Notice.startFailed]
    ∧ (startRecording { screen := some [TrackKind.video], mic := none, codecSupported := true }
        AppState.initial).screenStreamRef = some 0
    ∧ (startRecording { screen := some [TrackKind.video], mic := none, codecSupported := true }
        AppState.initial).streams
      = [{ tracks := [{ kind := TrackKind.video, readyState := ReadyState.live,
                        onended := false }] }]
    ∧ (startRecording { screen := some [TrackKind.video], mic := none, codecSupported := true }
        AppState.initial).tracksAcquired = 1
    ∧ (startRecording { screen := some [TrackKind.video], mic := none, codecSupported := true }
        AppState.initial).tracksReleased = 0 := by
  decide


/-! ## Stop triggers after the first -/

/-- Calling stop on a recorder twice is calling it once. -/
theorem MediaRecorder.stop_stop (r : MediaRecorder) : r.stop.stop = r.stop := by
  unfold MediaRecorder.stop
  by_cases h : r.state = RecordingState.inactive
  · simp [h]
  · simp [h]

/-- Every stop trigger either leaves the recorder as it is or calls its stop method. -/
theorem StopTrigger.apply_recorder (t : StopTrigger) (s : AppState) :
    (t.apply s).mediaRecorderRef = s.mediaRecorderRef
    ∨ (t.apply s).mediaRecorderRef = s.mediaRecorderRef.map MediaRecorder.stop := by
  cases t with
  | manual => exact Or.inr (stopRecording_fields s).1
  | limitTick =>
    simp only [StopTrigger.apply]
    split
    · simp only [step]
      split
      · unfold onTick
        split
        · exact Or.inr (stopRecording_fields (alert Notice.maxTimeReached s)).1
        · exact Or.inl rfl
      · exact Or.inl rfl
    · exact Or.inl rfl
  | interruption i j =>
    simp only [StopTrigger.apply, step, trackEnded]
    split
    · split
      · split
        · unfold onended
          cases h : s.mediaRecorderRef with
          | none => simp
          | some r =>
            by_cases hr : r.state = RecordingState.inactive
            · simp [hr]
            · simp [hr]
        · exact Or.inl rfl
      · exact Or.inl rfl
    · exact Or.inl rfl

/-- Whatever the sequence of stop triggers, at most one stop event is queued
on a recorder that was recording: the recorder is untouched or stopped once. -/
theorem applyTriggers_recorder (ts : List StopTrigger) (s : AppState) :
    (applyTriggers s ts).mediaRecorderRef = s.mediaRecorderRef
    ∨ (applyTriggers s ts).mediaRecorderRef = s.mediaRecorderRef.map MediaRecorder.stop := by
  induction ts generalizing s with
  | nil => exact Or.inl rfl
  | cons t rest ih =>
    have hstep : applyTriggers s (t :: rest) = applyTriggers (t.apply s) rest := rfl
    rw [hstep]
    rcases ih (t.apply s) with h | h <;> rcases StopTrigger.apply_recorder t s with h2 | h2
    · exact Or.inl (h.trans h2)
    · exact Or.inr (h.trans h2)
    · right; rw [h, h2]
    · right
      rw [h, h2]
      cases s.mediaRecorderRef with
      | none => rfl
      | some r => simp [MediaRecorder.stop_stop]

/-- C3: the sample session has recorded for 179 ticks. The screen track's
onended handler comes first: the recorder becomes inactive with one stop event
queued, the microphone track stays live and the interval stays scheduled. A
second trigger does not queue another stop event, but it does change the
state: the limit-reached tick ends the microphone track, clears both stream
refs, unschedules the interval, notifies the limit and sets the counter to
180, and a call of stopRecording likewise ends the track, clears the refs and
unschedules the interval. -/
theorem C3_trigger_after_interruption_changes_state :
    ((sampleSessionAfter 179).recordingTime, (sampleSessionAfter 179).isRecording) = (179, true)
    ∧ (applyTriggers (sampleSessionAfter 179)
        [StopTrigger.interruption 0 0]).mediaRecorderRef.map
          (fun r => (r.state, r.queuedStop)) = some (RecordingState.inactive, 1)
    ∧ (applyTriggers (sampleSessionAfter 179)
        [StopTrigger.interruption 0 0, StopTrigger.limitTick]).mediaRecorderRef.map
          (fun r => (r.state, r.queuedStop)) = some (RecordingState.inactive, 1)
    ∧ applyTriggers (sampleSessionAfter 179)
          [StopTrigger.interruption 0 0, StopTrigger.limitTick]
        ≠ applyTriggers (sampleSessionAfter 179) [StopTrigger.interruption 0 0]
    ∧ applyTriggers (sampleSessionAfter 179)
          [StopTrigger.interruption 0 0, StopTrigger.manual]
        ≠ applyTriggers (sampleSessionAfter 179) [StopTrigger.interruption 0 0]
    ∧ ((applyTriggers (sampleSessionAfter 179) [StopTrigger.interruption 0 0]).tracksLive,
       (applyTriggers (sampleSessionAfter 179) [StopTrigger.interruption 0 0]).micStreamRef,
       (applyTriggers (sampleSessionAfter 179) [StopTrigger.interruption 0 0]).intervals,
       (applyTriggers (sampleSessionAfter 179) [StopTrigger.interruption 0 0]).recordingTime)
        = (1, some 1, [1], 179)
    ∧ ((applyTriggers (sampleSessionAfter 179)
          [StopTrigger.interruption 0 0, StopTrigger.limitTick]).tracksLive,
       (applyTriggers (sampleSessionAfter 179)
          [StopTrigger.interruption 0 0, StopTrigger.limitTick]).micStreamRef,
       (applyTriggers (sampleSessionAfter 179)
          [StopTrigger.interruption 0 0, StopTrigger.limitTick]).intervals,
       (applyTriggers (sampleSessionAfter 179)
          [StopTrigger.interruption 0 0, StopTrigger.limitTick]).recordingTime)
        = (0, none, [], 180)
    ∧ ((applyTriggers (sampleSessionAfter 179)
          [StopTrigger.interruption 0 0, StopTrigger.manual]).tracksLive,
       (applyTriggers (sampleSessionAfter 179)
          [StopTrigger.interruption 0 0, StopTrigger.manual]).micStreamRef,
       (applyTriggers (sampleSessionAfter 179)
          [StopTrigger.interruption 0 0, StopTrigger.manual]).intervals,
       (applyTriggers (sampleSessionAfter 179)
          [StopTrigger.interruption 0 0, StopTrigger.manual]).recordingTime)
        = (0, none, [], 179) := by
  decide


/-! ## startRecording outside Idle -/

/-- C4 fails as stated. Recording: in the sample session after 5 ticks the
first lines of startRecording already change the state, the counter goes from 5
to 0 and isPreparing becomes true, and so does the whole call when the screen
request is rejected. Finalizing: that session after stopRecording, its stop
event still queued, has isRecording false, so a click on the record button
runs startRecording, whose first lines change the state, and the state differs
as well when the call has returned, whether or not the queued stop event ran
while it awaited. Preparing: after the first lines of a first call isRecording
is false, so a click runs startRecording again, and when its screen request is
rejected the state differs. -/
theorem C4_startRecording_changes_running_session :
    ((sampleSessionAfter 5).isRecording = true
      ∧ (sampleSessionAfter 5).recordingTime = 5
      ∧ startRecordingBegin (sampleSessionAfter 5) ≠ sampleSessionAfter 5
      ∧ (startRecordingBegin (sampleSessionAfter 5)).recordingTime = 0
      ∧ (startRecordingBegin (sampleSessionAfter 5)).isPreparing = true
      ∧ startRecording StartEnv.denied (sampleSessionAfter 5) ≠ sampleSessionAfter 5)
    ∧ ((stopRecording (sampleSessionAfter 5)).mediaRecorderRef.map
          (fun r => (r.state, r.queuedStop)) = some (RecordingState.inactive, 1)
      ∧ (stopRecording (sampleSessionAfter 5)).isRecording = false
      ∧ recordButtonClick StartEnv.denied (stopRecording (sampleSessionAfter 5))
          = startRecording StartEnv.denied (stopRecording (sampleSessionAfter 5))
      ∧ startRecordingBegin (stopRecording (sampleSessionAfter 5))
          ≠ stopRecording (sampleSessionAfter 5)
      ∧ startRecording StartEnv.denied (stopRecording (sampleSessionAfter 5))
          ≠ stopRecording (sampleSessionAfter 5)
      ∧ startRecordingResume StartEnv.denied
            (step (startRecordingBegin (stopRecording (sampleSessionAfter 5))) Event.stop)
          ≠ stopRecording (sampleSessionAfter 5))
    ∧ ((startRecordingBegin AppState.initial).isPreparing = true
      ∧ (startRecordingBegin AppState.initial).isRecording = false
      ∧ recordButtonClick StartEnv.denied (startRecordingBegin AppState.initial)
          = startRecording StartEnv.denied (startRecordingBegin AppState.initial)
      ∧ startRecording StartEnv.denied (startRecordingBegin AppState.initial)
          ≠ startRecordingBegin AppState.initial) := by
  decide

/-- The first lines of startRecording leave a state as it is exactly when its
artifact is already cleared, it is already preparing and its counter is 0. -/
theorem startRecordingBegin_eq_self_iff (s : AppState) :
    startRecordingBegin s = s
      ↔ s.videoRecordedURL = none ∧ s.isPreparing = true ∧ s.recordingTime = 0 := by
  constructor
  · intro h
    refine ⟨?_, ?_, ?_⟩
    · rw [← h]; rfl
    · rw [← h]; rfl
    · rw [← h]; rfl
  · rintro ⟨h1, h2, h3⟩
    cases s
    simp only [startRecordingBegin] at *
    subst h1 h2 h3
    rfl

/-- C4 as amended: startRecording has no guard on the phase. In every state,
whatever the phase, the call first runs lines 41-43: before its first await
videoRecordedURL is null, isPreparing is true and the counter is 0, while
isRecording, the recordings, the recorder, the accumulated chunks, the stream
references, the streams and the timer are as before the call; so at that point
the state is unchanged exactly when the artifact was already cleared,
isPreparing already true and the counter already 0, and it is changed whenever
isPreparing was false. The call then goes on to the requests, whatever they
settle to. In a state whose isRecording is true a click on the record button
does not call startRecording: it runs stopRecording. -/
theorem C4_startRecording_unguarded_button_gated (s : AppState) :
    ((startRecordingBegin s).videoRecordedURL = none
      ∧ (startRecordingBegin s).isPreparing = true
      ∧ (startRecordingBegin s).recordingTime = 0)
    ∧ ((startRecordingBegin s).isRecording = s.isRecording
      ∧ (startRecordingBegin s).recordings = s.recordings
      ∧ (startRecordingBegin s).mediaRecorderRef = s.mediaRecorderRef
      ∧ (startRecordingBegin s).recordedChunksRef = s.recordedChunksRef
      ∧ (startRecordingBegin s).screenStreamRef = s.screenStreamRef
      ∧ (startRecordingBegin s).micStreamRef = s.micStreamRef
      ∧ (startRecordingBegin s).streams = s.streams
      ∧ (startRecordingBegin s).timerRef = s.timerRef
      ∧ (startRecordingBegin s).intervals = s.intervals)
    ∧ (startRecordingBegin s = s
        ↔ s.videoRecordedURL = none ∧ s.isPreparing = true ∧ s.recordingTime = 0)
    ∧ (s.isPreparing = false → startRecordingBegin s ≠ s)
    ∧ (∀ env : StartEnv, startRecording env s = startRecordingResume env (startRecordingBegin s))
    ∧ (s.isRecording = true → ∀ env : StartEnv, recordButtonClick env s = stopRecording s) := by
  refine ⟨⟨rfl, rfl, rfl⟩, ⟨rfl, rfl, rfl, rfl, rfl, rfl, rfl, rfl, rfl⟩,
    startRecordingBegin_eq_self_iff s, ?_, fun _ => rfl, ?_⟩
  · intro hp heq
    have := ((startRecordingBegin_eq_self_iff s).mp heq).2.1
    rw [hp] at this
    exact Bool.noConfusion this
  · intro h env
    simp [recordButtonClick, h]

/-- Witness of the amended C4 in the sample session after 5 ticks, where
isRecording is true and isPreparing is false. -/
theorem C4_startRecording_unguarded_button_gated_witness :
    ((sampleSessionAfter 5).isPreparing = false
      ∧ startRecordingBegin (sampleSessionAfter 5) ≠ sampleSessionAfter 5)
    ∧ ((sampleSessionAfter 5).isRecording = true
      ∧ recordButtonClick StartEnv.denied (sampleSessionAfter 5)
          = stopRecording (sampleSessionAfter 5)) :=
  ⟨⟨by decide,
    (C4_startRecording_unguarded_button_gated (sampleSessionAfter 5)).2.2.2.1 (by decide)⟩,
   ⟨by decide,
    (C4_startRecording_unguarded_button_gated (sampleSessionAfter 5)).2.2.2.2.2 (by decide)
      StartEnv.denied⟩⟩

/-! ## Upload of the artifact -/

/-- C8 fails as stated: the sample session is stopped after 5 ticks and its
artifact of 3 bytes is exposed; the upload button is clicked and the POST is
answered with status 500: the failure is notified, no refetch is made and the
recordings are unchanged, but videoRecordedURL is null afterwards, which
uploadRecording alone, without the click handler around it, would not do. -/
theorem C8_artifact_cleared_after_failed_upload :
    sampleReady.videoRecordedURL = some { bytes := [1, 2, 3], type := MimeType.webm }
    ∧ (step sampleReady (Event.clickUpload UploadEnv.serverError)).videoRecordedURL = none
    ∧ (step sampleReady (Event.clickUpload UploadEnv.serverError)).log
      = [Effect.postRecording { bytes := [1, 2, 3], type := MimeType.webm },
          Effect.alert Notice.uploadFailed]
    ∧ (step sampleReady (Event.clickUpload UploadEnv.serverError)).recordings
      = sampleReady.recordings
    ∧ uploadRecording sampleReady.videoRecordedURL UploadEnv.serverError sampleReady
      ≠ step sampleReady (Event.clickUpload UploadEnv.serverError) := by
  decide

/-- C8 as amended: when the upload button is clicked with an artifact exposed
and the POST returns a non-success status, the failure is notified, the
recordings list is not refetched and not changed, nothing else of the state
changes, and videoRecordedURL is null afterwards: the click handler clears it
whatever the outcome of the upload. -/
theorem C8_failed_upload_reported_list_kept_artifact_cleared
    (s : AppState) (b : Blob) (env : UploadEnv) (res : HttpResponse)
    (hurl : s.videoRecordedURL = some b) (hblob : env.blobFetched = true)
    (hpost : env.post = some res) (hok : res.ok = false) :
    uploadButtonClick env s
      = { s with
          videoRecordedURL := none
          log := s.log ++ [Effect.postRecording b, Effect.alert Notice.uploadFailed] }
    ∧ (uploadButtonClick env s).recordings = s.recordings
    ∧ Effect.getRecordings ∉ [Effect.postRecording b, Effect.alert Notice.uploadFailed]
    ∧ (uploadButtonClick env s).videoRecordedURL = none := by
  have h : uploadButtonClick env s
      = { s with
          videoRecordedURL := none
          log := s.log ++ [Effect.postRecording b, Effect.alert Notice.uploadFailed] } := by
    simp [uploadButtonClick, uploadRecording, hurl, hblob, hpost, hok, alert]
  refine ⟨h, ?_, by simp, ?_⟩
  · rw [h]
  · rw [h]

/-- Witness of the amended C8 on the sample session's artifact and a status 500. -/
theorem C8_failed_upload_reported_list_kept_artifact_cleared_witness :
    (uploadButtonClick UploadEnv.serverError sampleReady).videoRecordedURL = none :=
  (C8_failed_upload_reported_list_kept_artifact_cleared sampleReady
    { bytes := [1, 2, 3], type := MimeType.webm } UploadEnv.serverError
    { ok := false, status := 500, jsonOk := true }
    (by decide) (by decide) (by decide) (by decide)).2.2.2


/-! ## The counter when recording ends -/

/-- C9 fails as stated: the sample session has recorded for 5 ticks, so the
counter is 5; it is stopped by stopRecording, which leaves the counter at 5,
and then the stop event runs onstop: the counter is 0, not 5. -/
theorem C9_counter_not_frozen_after_onstop :
    (sampleSessionAfter 5).recordingTime = 5
    ∧ (stopRecording (sampleSessionAfter 5)).recordingTime = 5
    ∧ (step (stopRecording (sampleSessionAfter 5)) Event.stop).videoRecordedURL
        = some (Blob.ofParts [] MimeType.webm)
    ∧ (step (stopRecording (sampleSessionAfter 5)) Event.stop).recordingTime = 0
    ∧ (step (stopRecording (sampleSessionAfter 5)) Event.stop).recordingTime
        ≠ (sampleSessionAfter 5).recordingTime := by
  decide

theorem clearInterval_intervals_subset (s : AppState) :
    ∀ x, x ∈ (clearInterval s).intervals → x ∈ s.intervals := by
  intro x hx
  unfold clearInterval at hx
  split at hx
  · exact hx
  · exact (List.mem_filter.mp hx).1

/-- No stop trigger changes timerRef or schedules an interval. -/
theorem StopTrigger.apply_timer (t : StopTrigger) (s : AppState) :
    (t.apply s).timerRef = s.timerRef
    ∧ ∀ x, x ∈ (t.apply s).intervals → x ∈ s.intervals := by
  have hstop : ∀ u : AppState, (stopRecording u).timerRef = u.timerRef
      ∧ ∀ x, x ∈ (stopRecording u).intervals → x ∈ u.intervals := by
    intro u
    obtain ⟨-, h2, h3, -⟩ := stopRecording_fields u
    refine ⟨h2, fun x hx => ?_⟩
    rw [h3] at hx
    split at hx
    · exact hx
    · exact (List.mem_filter.mp hx).1
  cases t with
  | manual => exact hstop s
  | limitTick =>
    simp only [StopTrigger.apply]
    split
    · simp only [step]
      split
      · unfold onTick
        split
        · exact hstop (alert Notice.maxTimeReached s)
        · exact ⟨rfl, fun _ hx => hx⟩
      · exact ⟨rfl, fun _ hx => hx⟩
    · exact ⟨rfl, fun _ hx => hx⟩
  | interruption i j =>
    obtain ⟨-, -, h3, h4⟩ := trackEnded_fields i j s
    refine ⟨h4, fun x hx => ?_⟩
    have : (StopTrigger.apply s (StopTrigger.interruption i j)).intervals
        = (trackEnded i j s).intervals := rfl
    rw [this, h3] at hx
    exact hx

theorem uploadRecording_intervals (url : Option Blob) (env : UploadEnv) (s : AppState) :
    (uploadRecording url env s).intervals = s.intervals := by
  unfold uploadRecording fetchRecordings alert
  cases url <;> cases env.blobFetched <;> cases env.post <;> cases env.list <;>
    simp <;> split <;> rfl

theorem onstop_intervals_subset (s : AppState) :
    ∀ x, x ∈ (onstop s).intervals → x ∈ s.intervals := by
  intro x hx
  unfold onstop at hx
  exact clearInterval_intervals_subset
    { s with
      videoRecordedURL := some (Blob.ofParts s.recordedChunksRef MimeType.webm)
      isRecording := false
      isPreparing := false
      recordingTime := 0 } x hx

/-- With the counter at 0 and no interval scheduled, no event other than a
click on the record button moves the counter or schedules an interval. -/
theorem step_keeps_counter_reset (s : AppState) (e : Event)
    (he : ∀ env, e ≠ Event.clickRecord env)
    (h : s.recordingTime = 0 ∧ s.intervals = []) :
    (step s e).recordingTime = 0 ∧ (step s e).intervals = [] := by
  obtain ⟨hT, hI⟩ := h
  cases e with
  | clickRecord env => exact absurd rfl (he env)
  | clickUpload env =>
    simp only [step, uploadButtonClick]
    rw [uploadRecording_recordingTime, uploadRecording_intervals]
    exact ⟨hT, hI⟩
  | clickDownload =>
    simp only [step]
    rw [downloadButtonClick_recordingTime]
    refine ⟨hT, ?_⟩
    unfold downloadButtonClick downloadRecording
    split <;> exact hI
  | timerFired id =>
    simp only [step, hI, List.not_mem_nil, if_false]
    exact ⟨hT, trivial⟩
  | trackEnded i j =>
    simp only [step]
    rw [trackEnded_recordingTime, (trackEnded_fields i j s).2.2.1]
    exact ⟨hT, hI⟩
  | dataavailable data =>
    simp only [step]
    split
    · unfold ondataavailable
      split <;> exact ⟨hT, hI⟩
    · exact ⟨hT, hI⟩
  | stop =>
    simp only [step, stopEvent]
    split
    · split
      · refine ⟨onstop_recordingTime _, ?_⟩
        apply List.eq_nil_iff_forall_not_mem.mpr
        intro x hx
        have := onstop_intervals_subset _ x hx
        simp [hI] at this
      · exact ⟨hT, hI⟩
    · exact ⟨hT, hI⟩

theorem run_keeps_counter_reset (evs : List Event) (s : AppState)
    (he : ∀ env, Event.clickRecord env ∉ evs)
    (h : s.recordingTime = 0 ∧ s.intervals = []) :
    (run s evs).recordingTime = 0 ∧ (run s evs).intervals = [] := by
  induction evs generalizing s with
  | nil => exact h
  | cons e es ih =>
    have h1 : ∀ env, e ≠ Event.clickRecord env := by
      intro env heq
      exact he env (by simp [heq])
    have h2 : ∀ env, Event.clickRecord env ∉ es := by
      intro env hmem
      exact he env (List.mem_cons_of_mem _ hmem)
    exact ih (step s e) h2 (step_keeps_counter_reset s e h1 h)

/-- C9 as amended: a session started by startRecording with no other interval
scheduled has recorded for k ticks, k below 180, so its counter is k; a stop
trigger of any kind makes the recorder inactive. Once the stop event has run
onstop and the artifact is exposed, the counter is 0 (onstop resets it), it
stays 0 through every later sequence of events without a click on the record
button, and the next startRecording sets it to 0 again. -/
theorem C9_counter_reset_to_zero_by_onstop
    (s : AppState) (screenKinds micKinds : List TrackKind) (k : Nat) (t : StopTrigger)
    (evs : List Event)
    (hk : k < 180) (hint : s.intervals = [])
    (hstopped : (t.apply (run (startRecording (StartEnv.granted screenKinds micKinds) s)
        (List.replicate k (Event.timerFired s.nextIntervalId)))).mediaRecorderRef.map
          MediaRecorder.state = some RecordingState.inactive)
    (hev : ∀ env, Event.clickRecord env ∉ evs) :
    (run (startRecording (StartEnv.granted screenKinds micKinds) s)
        (List.replicate k (Event.timerFired s.nextIntervalId))).recordingTime = k
    ∧ (step (t.apply (run (startRecording (StartEnv.granted screenKinds micKinds) s)
        (List.replicate k (Event.timerFired s.nextIntervalId)))) Event.stop).videoRecordedURL.isSome
          = true
    ∧ (step (t.apply (run (startRecording (StartEnv.granted screenKinds micKinds) s)
        (List.replicate k (Event.timerFired s.nextIntervalId)))) Event.stop).recordingTime = 0
    ∧ (run (step (t.apply (run (startRecording (StartEnv.granted screenKinds micKinds) s)
        (List.replicate k (Event.timerFired s.nextIntervalId)))) Event.stop) evs).recordingTime = 0
    ∧ ∀ env : StartEnv,
        (startRecording env (run (step (t.apply (run
          (startRecording (StartEnv.granted screenKinds micKinds) s)
          (List.replicate k (Event.timerFired s.nextIntervalId)))) Event.stop)
            evs)).recordingTime = 0 := by
  obtain ⟨hT, -, -, hRef, hInt, -, -, -, -, -, hSt, hQ⟩ :=
    startRecording_granted_fields s screenKinds micKinds
  generalize startRecording (StartEnv.granted screenKinds micKinds) s = s0 at *
  have hmem : s.nextIntervalId ∈ s0.intervals := by rw [hInt]; simp
  have hsk := run_ticks_below_limit s.nextIntervalId k s0 hmem (by rw [hT]; omega)
  generalize run s0 (List.replicate k (Event.timerFired s.nextIntervalId)) = sk at *
  have hskT : sk.recordingTime = k := by rw [hsk, hT]; simp
  have hskRec : sk.mediaRecorderRef = s0.mediaRecorderRef := by rw [hsk]
  have hskRef : sk.timerRef = some s.nextIntervalId := by rw [hsk]; exact hRef
  have hskInt : sk.intervals = [s.nextIntervalId] := by rw [hsk]; simp [hInt, hint]
  obtain ⟨r, hr⟩ : ∃ r, s0.mediaRecorderRef = some r := by
    cases h : s0.mediaRecorderRef with
    | none => simp [h] at hSt
    | some r => exact ⟨r, rfl⟩
  have hrSt : r.state = RecordingState.recording := by simpa [hr] using hSt
  have hrQ : r.queuedStop = 0 := by simpa [hr] using hQ
  have hrec : (t.apply sk).mediaRecorderRef = some r.stop := by
    rcases StopTrigger.apply_recorder t sk with h | h
    · rw [h, hskRec, hr] at hstopped
      simp [hrSt] at hstopped
    · rw [h, hskRec, hr]; rfl
  have hq : r.stop.queuedStop > 0 := by simp [MediaRecorder.stop, hrSt]
  obtain ⟨hTimer, hSub⟩ := StopTrigger.apply_timer t sk
  have hstop : step (t.apply sk) Event.stop
      = onstop { t.apply sk with
          mediaRecorderRef := some { r.stop with queuedStop := r.stop.queuedStop - 1 } } := by
    simp only [step, stopEvent, hrec]
    rw [if_pos hq]
  have hZero : (step (t.apply sk) Event.stop).recordingTime = 0 := by
    rw [hstop]; exact onstop_recordingTime _
  have hNone : (step (t.apply sk) Event.stop).intervals = [] := by
    apply List.eq_nil_iff_forall_not_mem.mpr
    intro x hx
    rw [hstop] at hx
    unfold onstop clearInterval at hx
    simp only [hTimer, hskRef] at hx
    obtain ⟨hx1, hx2⟩ := List.mem_filter.mp hx
    have hx3 := hSub x hx1
    rw [hskInt] at hx3
    simp at hx3
    simp [hx3] at hx2
  have hUrl : (step (t.apply sk) Event.stop).videoRecordedURL.isSome = true := by
    rw [hstop]
    unfold onstop clearInterval
    split <;> rfl
  have hlater := run_keeps_counter_reset evs _ hev ⟨hZero, hNone⟩
  exact ⟨hskT, hUrl, hZero, hlater.1, fun env => startRecording_recordingTime env _⟩

/-- Witness of the amended C9: the sample session after 5 ticks, stopped by
stopRecording, followed by a failed upload and a late firing of its interval. -/
theorem C9_counter_reset_to_zero_by_onstop_witness :
    (run (step (StopTrigger.apply
        (run (startRecording (StartEnv.granted [TrackKind.video] [TrackKind.audio])
          AppState.initial) (List.replicate 5 (Event.timerFired AppState.initial.nextIntervalId)))
        StopTrigger.manual) Event.stop)
      [Event.clickUpload UploadEnv.serverError, Event.timerFired 1]).recordingTime = 0 :=
  (C9_counter_reset_to_zero_by_onstop AppState.initial [TrackKind.video] [TrackKind.audio] 5
    StopTrigger.manual [Event.clickUpload UploadEnv.serverError, Event.timerFired 1]
    (by decide) (by decide) (by decide) (by simp)).2.2.2.1

end ScreenRecorder
